import Mathlib

/-!
A verification development for a small ETL pipeline (`etl.py` together with
`sql_queries.py`).  The pipeline reads song files and log files, and fills
five relational tables: `songs`, `artists`, `users`, `time` and `songplays`.
The Lean definitions below are a shallow embedding of that code: tables are
lists of rows, SQL inserts become Lean functions on those lists, and the
per-file loops of `etl.py` become folds.
-/

/-- A row of the `songs` table (`song_table_create`, sql_queries.py lines
35-43): `song_id char(18) PRIMARY KEY, title, artist_id, year, duration`. -/
structure SongRow where
  song_id : String
  title : String
  artist_id : String
  year : Nat
  duration : Rat
deriving DecidableEq, Repr

/-- A row of the `artists` table (`artist_table_create`, sql_queries.py lines
45-53): `artist_id char(18) PRIMARY KEY, artist_name, artist_location,
artist_latitude, artist_longitude`. -/
structure ArtistRow where
  artist_id : String
  artist_name : String
  artist_location : String
  artist_latitude : Option Rat
  artist_longitude : Option Rat
deriving DecidableEq, Repr

/-- A row of the `users` table (`user_table_create`, sql_queries.py lines
25-33): `user_id int PRIMARY KEY, first_name, last_name, gender, level`. -/
structure UserRow where
  user_id : Nat
  first_name : String
  last_name : String
  gender : String
  level : String
deriving DecidableEq, Repr

/-- A row of the `time` table (`time_table_create`, sql_queries.py lines
55-65): `start_time timestamp PRIMARY KEY` plus the derived fields.
`start_time` is kept as epoch milliseconds. -/
structure TimeRow where
  start_time : Nat
  hour : Nat
  day : Nat
  week : Nat
  month : Nat
  year : Nat
  weekday : Nat
deriving DecidableEq, Repr

/-- A row of the `songplays` table as built by `process_log_file`
(etl.py lines 108-112): `(ts, userId, level, songid, artistid, sessionId,
location, userAgent)`; `songid` and `artistid` may be SQL NULL, hence
`Option`. -/
structure SongPlayRow where
  start_time : Nat
  user_id : Nat
  level : String
  song_id : Option String
  artist_id : Option String
  session_id : Nat
  location : String
  user_agent : String
deriving DecidableEq, Repr

/-- One record of a log file, with the fields `process_log_file` reads:
`page`, `ts` (epoch milliseconds), `userId`, `firstName`, `lastName`,
`gender`, `level`, `song`, `artist`, `length`, `sessionId`, `location`,
`userAgent`. -/
structure LogEvent where
  page : String
  ts : Nat
  userId : Nat
  firstName : String
  lastName : String
  gender : String
  level : String
  song : String
  artist : String
  length : Rat
  sessionId : Nat
  location : String
  userAgent : String
deriving DecidableEq, Repr

/-- One record of a song file, with the fields `process_song_file` reads
(etl.py lines 28-39). -/
structure SongRecord where
  song_id : String
  title : String
  artist_id : String
  year : Nat
  duration : Rat
  artist_name : String
  artist_location : String
  artist_latitude : Option Rat
  artist_longitude : Option Rat
deriving DecidableEq, Repr

/-- The database state: the five tables, each a list of rows in insertion
order. -/
structure DB where
  songs : List SongRow
  artists : List ArtistRow
  users : List UserRow
  time : List TimeRow
  songplays : List SongPlayRow
deriving DecidableEq, Repr

def emptyDB : DB := ⟨[], [], [], [], []⟩

/-! ## The song lookup (`song_select`, sql_queries.py lines 96-108)

`SELECT s.song_id, s.artist_id FROM songs s LEFT JOIN artists a ON
s.artist_id = a.artist_id WHERE s.title = %s AND a.artist_name = %s AND
s.duration = %s`.  The WHERE clause references `a.artist_name`, so rows
where the left join produced no artist cannot satisfy it: the query is an
inner join filtered by the three equality conditions. -/

/-- The WHERE condition of `song_select` on one joined `(s, a)` pair:
`s.artist_id = a.artist_id AND s.title = song AND a.artist_name = artist
AND s.duration = length`.  The comparisons are exact equality, as in SQL. -/
def matchCond (s : SongRow) (a : ArtistRow) (song artist : String)
    (length : Rat) : Bool :=
  s.artist_id == a.artist_id && s.title == song && a.artist_name == artist
    && s.duration == length

/-- All result rows of `song_select`, in nested-loop join order. -/
def songSelectResults (songs : List SongRow) (artists : List ArtistRow)
    (song artist : String) (length : Rat) : List (String × String) :=
  songs.flatMap fun s =>
    (artists.filter fun a => matchCond s a song artist length).map
      fun _ => (s.song_id, s.artist_id)

/-- `cur.execute(song_select, ...); results = cur.fetchone()` followed by the
`if results` branch of etl.py lines 99-105: take the first result row if any,
else `(None, None)`. -/
def resolveSong (songs : List SongRow) (artists : List ArtistRow)
    (song artist : String) (length : Rat) : Option String × Option String :=
  match songSelectResults songs artists song artist length with
  | [] => (none, none)
  | p :: _ => (some p.1, some p.2)

/-- `songplay_data` of etl.py lines 108-112 for one retained event: the row
handed to `songplay_table_insert`, with `(songid, artistid)` coming from
`resolveSong`. -/
def mkSongplay (db : DB) (e : LogEvent) : SongPlayRow :=
  let r := resolveSong db.songs db.artists e.song e.artist e.length
  ⟨e.ts, e.userId, e.level, r.1, r.2, e.sessionId, e.location, e.userAgent⟩

/-! ## Timestamp decomposition (etl.py lines 66-72)

`pd.to_datetime(df["ts"], unit='ms')` followed by the `.hour`, `.day`,
`.week`, `.month`, `.year`, `.dayofweek` accessors.  The accessors are
library code; they are embedded here as the proleptic Gregorian calendar on
epoch milliseconds (civil-from-days), the ISO-8601 week number, and the
Monday=0 .. Sunday=6 day-of-week convention, which is what the pandas
`Timestamp` accessors compute for timestamps at or after 1970-01-01. -/

def msPerDay : Nat := 86400000

/-- Whole days since 1970-01-01. -/
def daysOfMs (t : Nat) : Nat := t / msPerDay

/-- `Timestamp.hour`: hour of day, 0-23. -/
def hourOfMs (t : Nat) : Nat := t % msPerDay / 3600000

/-- Civil date `(year, month, day)` from a count of days since 1970-01-01
(Gregorian; valid for nonnegative day counts). -/
def civilOfDays (days : Nat) : Nat × Nat × Nat :=
  let z := days + 719468
  let era := z / 146097
  let doe := z % 146097
  let yoe := (doe - doe / 1460 + doe / 36524 - doe / 146096) / 365
  let y := yoe + era * 400
  let doy := doe - (365 * yoe + yoe / 4 - yoe / 100)
  let mp := (5 * doy + 2) / 153
  let d := doy - (153 * mp + 2) / 5 + 1
  let m := if mp < 10 then mp + 3 else mp - 9
  (if m ≤ 2 then y + 1 else y, m, d)

/-- `Timestamp.year`. -/
def yearOfMs (t : Nat) : Nat := (civilOfDays (daysOfMs t)).1

/-- `Timestamp.month`, 1-12. -/
def monthOfMs (t : Nat) : Nat := (civilOfDays (daysOfMs t)).2.1

/-- `Timestamp.day`, 1-31. -/
def dayOfMs (t : Nat) : Nat := (civilOfDays (daysOfMs t)).2.2

/-- `Timestamp.dayofweek`: 0 = Monday .. 6 = Sunday.  1970-01-01 was a
Thursday, hence the offset 3. -/
def weekdayOfMs (t : Nat) : Nat := (daysOfMs t + 3) % 7

def isLeap (y : Nat) : Bool := (y % 4 == 0 && y % 100 != 0) || y % 400 == 0

/-- Days before the start of month `m` (1-12) in a non-leap year. -/
def monthCum (m : Nat) : Nat :=
  [0, 31, 59, 90, 120, 151, 181, 212, 243, 273, 304, 334].getD (m - 1) 0

/-- Ordinal day of the year, 1-366. -/
def dayOfYear (y m d : Nat) : Nat :=
  monthCum m + d + (if 2 < m && isLeap y then 1 else 0)

/-- Weekday of 31 December of year `y` (0 = Sunday convention), used for the
53-week-year test. -/
def yearEndDay (y : Nat) : Nat := (y + y / 4 - y / 100 + y / 400) % 7

/-- An ISO year has 53 weeks iff its last day or its predecessor's last day
makes the long-year condition hold. -/
def isoLongYear (y : Nat) : Bool := yearEndDay y == 4 || yearEndDay (y - 1) == 3

/-- `Timestamp.week`: the ISO-8601 week number, 1-53. -/
def isoWeekOfMs (t : Nat) : Nat :=
  let c := civilOfDays (daysOfMs t)
  let n := dayOfYear c.1 c.2.1 c.2.2
  let w := weekdayOfMs t + 1
  let w0 := (n + 10 - w) / 7
  if w0 = 0 then (if isoLongYear (c.1 - 1) then 53 else 52)
  else if w0 = 53 && !isoLongYear c.1 then 1
  else w0

/-- The row proposed for the `time` table from one retained event's `ts`
(etl.py lines 66-75): every derived column is a function of `ts` alone. -/
def timeMark (t : Nat) : TimeRow :=
  ⟨t, hourOfMs t, dayOfMs t, isoWeekOfMs t, monthOfMs t, yearOfMs t,
    weekdayOfMs t⟩


/-! ## drop_duplicates (pandas, keep='first')

`DataFrame.drop_duplicates()` keeps the first occurrence of each distinct
row and preserves order. -/

def dropDupsAux [DecidableEq α] (seen : List α) : List α → List α
  | [] => []
  | x :: xs =>
    if x ∈ seen then dropDupsAux seen xs
    else x :: dropDupsAux (x :: seen) xs

def dropDups [DecidableEq α] (l : List α) : List α := dropDupsAux [] l

/-! ## The SQL inserts (sql_queries.py lines 69-92) -/

/-- `song_table_insert`: `INSERT INTO songs ... ON CONFLICT (song_id) DO
NOTHING`. -/
def insertSong (t : List SongRow) (r : SongRow) : List SongRow :=
  if t.any fun x => x.song_id == r.song_id then t else t ++ [r]

/-- `artist_table_insert`: `INSERT INTO artists ... ON CONFLICT (artist_id)
DO NOTHING`. -/
def insertArtist (t : List ArtistRow) (r : ArtistRow) : List ArtistRow :=
  if t.any fun x => x.artist_id == r.artist_id then t else t ++ [r]

/-- `time_table_insert`: `INSERT INTO time ... ON CONFLICT (start_time) DO
NOTHING`. -/
def insertTime (t : List TimeRow) (r : TimeRow) : List TimeRow :=
  if t.any fun x => x.start_time == r.start_time then t else t ++ [r]

/-- `user_table_insert`: `INSERT INTO users ... ON CONFLICT (user_id) DO
UPDATE SET level = EXCLUDED.level`.  `user_id` is the primary key, so at
most one existing row can conflict; on conflict only its `level` is set. -/
def upsertUser (t : List UserRow) (r : UserRow) : List UserRow :=
  if t.any fun x => x.user_id == r.user_id then
    t.map fun x =>
      if x.user_id == r.user_id then { x with level := r.level } else x
  else t ++ [r]

/-! ## The songplays schema and NOT NULL checking

`songplay_table_create` (sql_queries.py lines 11-23) declares
`start_time timestamp NOT NULL, user_id int NOT NULL, level varchar,
song_id char (18) NOT NULL, artist_id char (18) NOT NULL, session_id int,
location varchar, user_agent varchar, songplay_id SERIAL PRIMARY KEY`.
PostgreSQL rejects an INSERT that puts NULL into a NOT NULL column. -/

/-- Whether each inserted column of `songplays` is declared NOT NULL, in the
column order of the DDL (the SERIAL key is generated, never null). -/
def songplaysNotNull : List Bool :=
  [true, true, false, true, true, false, false, false]

/-- Which of the eight values of `songplay_data` are SQL NULL, in column
order.  Only `song_id` and `artist_id` can be null in the emitted row. -/
def songplayNulls (r : SongPlayRow) : List Bool :=
  [false, false, false, r.song_id.isNone, r.artist_id.isNone, false, false,
    false]

inductive SqlError where
  | notNullViolation
deriving DecidableEq, Repr

/-- Executing `songplay_table_insert` on a row: PostgreSQL checks every
NOT NULL column; a null value there raises a constraint violation, else the
row is appended. -/
def insertSongplay (t : List SongPlayRow) (r : SongPlayRow) :
    Except SqlError (List SongPlayRow) :=
  if ((songplaysNotNull.zip (songplayNulls r)).all fun p => !p.1 || !p.2)
  then .ok (t ++ [r])
  else .error .notNullViolation

/-! ## process_log_file (etl.py lines 43-113)

Filter to `page == 'NextSong'`, derive and insert the deduplicated time
rows, upsert the deduplicated user rows, then emit one songplay row per
retained event, in file order. -/

/-- `df.query("page == 'NextSong'")` (etl.py line 63). -/
def retained (events : List LogEvent) : List LogEvent :=
  events.filter fun e => e.page == "NextSong"

/-- `time_df` (etl.py lines 74-76): the deduplicated time rows proposed for
insertion, in file order. -/
def timeRows (events : List LogEvent) : List TimeRow :=
  dropDups ((retained events).map fun e => timeMark e.ts)

/-- `user_df` (etl.py lines 81-89): the deduplicated user rows, in file
order. -/
def userRows (events : List LogEvent) : List UserRow :=
  dropDups ((retained events).map fun e =>
    ⟨e.userId, e.firstName, e.lastName, e.gender, e.level⟩)

/-- The songplay rows emitted by the loop of etl.py lines 96-113, in file
order.  The loop reads `songs`/`artists` only, and the log phase never
writes them, so every lookup sees the same `db`. -/
def emittedSongplays (db : DB) (events : List LogEvent) :
    List SongPlayRow :=
  (retained events).foldl (fun acc e => acc ++ [mkSongplay db e]) []

/-! ## process_song_file (etl.py lines 9-41)

`pd.read_json(filepath, lines=True)` parses every line of the file into a
record, but `values.tolist()[0]` takes only record 0 of the frame, for the
song insert and for the artist insert alike.  On an empty frame `[0]`
raises `IndexError`. -/

inductive EtlError where
  | indexError
deriving DecidableEq, Repr

/-- The `songs` row built from a song record (etl.py lines 28-32). -/
def songRowOf (r : SongRecord) : SongRow :=
  ⟨r.song_id, r.title, r.artist_id, r.year, r.duration⟩

/-- The `artists` row built from a song record (etl.py lines 36-40). -/
def artistRowOf (r : SongRecord) : ArtistRow :=
  ⟨r.artist_id, r.artist_name, r.artist_location, r.artist_latitude,
    r.artist_longitude⟩

/-- `process_song_file` on the parsed records of one file. -/
def processSongFile (db : DB) (records : List SongRecord) :
    Except EtlError DB :=
  match records with
  | [] => .error .indexError
  | r :: _ =>
    .ok { db with
      songs := insertSong db.songs (songRowOf r)
      artists := insertArtist db.artists (artistRowOf r) }

/-- The song-file phase: `process_data(..., func=process_song_file)` applied
to a list of files, each file given as its parsed records; a failing file
aborts the phase. -/
def runSongPhase (db : DB) (files : List (List SongRecord)) :
    Except EtlError DB :=
  match files with
  | [] => .ok db
  | f :: fs =>
    match processSongFile db f with
    | .error e => .error e
    | .ok db₁ => runSongPhase db₁ fs

/-! ## File discovery (etl.py lines 132-138)

`for root, dirs, files in os.walk(filepath): files = glob.glob(
os.path.join(root, '*.json')); all_files.append(os.path.abspath(f))`,
then drop paths containing `.ipynb_checkpoints`.  `os.walk` calls
`scandir` on the top directory; with the default `onerror=None` an
`OSError` (such as FileNotFoundError for a missing root) is ignored and the
walk yields nothing. -/

/-- One directory visited by `os.walk`: its absolute path and the names of
the plain files in it. -/
structure WalkEntry where
  path : String
  files : List String
deriving DecidableEq, Repr

/-- The directory tree under a root path: either the root does not exist, or
it is the list of directories a complete walk visits. -/
structure FileSystem where
  rootExists : Bool
  dirs : List WalkEntry
deriving Repr

inductive OSError where
  | fileNotFound
deriving DecidableEq, Repr

/-- `os.scandir` on the root: an error when the path does not exist. -/
def scandirRoot (fs : FileSystem) : Except OSError (List WalkEntry) :=
  if fs.rootExists then .ok fs.dirs else .error .fileNotFound

/-- `os.walk` with the default `onerror=None`: a scandir error is swallowed
and the walk yields no entries. -/
def osWalk (fs : FileSystem) : List WalkEntry :=
  match scandirRoot fs with
  | .error _ => []
  | .ok ds => ds

/-- Does `s` end with `pat`?  (The `*.json` glob pattern of etl.py line
135.) -/
def endsWithStr (s pat : String) : Bool := pat.data.isSuffixOf s.data

/-- Does `pat` occur in `l` at some position? -/
def containsAt (pat : List Char) : List Char → Bool
  | [] => pat.isEmpty
  | c :: rest => pat.isPrefixOf (c :: rest) || containsAt pat rest

/-- Does `sub` occur in `s`?  (`sub in file` of etl.py line 138.) -/
def containsStr (s sub : String) : Bool := containsAt sub.data s.data

/-- `all_files` (etl.py lines 133-138): for each walked directory, the
`*.json` entries as absolute paths, minus paths containing
`.ipynb_checkpoints`. -/
def getFiles (fs : FileSystem) : List String :=
  let all := (osWalk fs).flatMap fun d =>
    (d.files.filter fun f => endsWithStr f ".json").map fun f =>
      d.path ++ "/" ++ f
  all.filter fun f => !containsStr f ".ipynb_checkpoints"

/-! ## The per-file runner (etl.py lines 144-148)

`for i, datafile in enumerate(all_files, 1): func(cur, datafile);
conn.commit(); print('{}/{} files processed.')`.  Work done by `func` is
only durable after the `conn.commit()` that follows it; an exception in
`func` propagates, ending the run with the current file uncommitted and all
earlier commits intact. -/

def progressLine (i n : Nat) : String :=
  toString i ++ "/" ++ toString n ++ " files processed."

/-- Outcome of a run: the committed database, the error that stopped the run
(if any), and the printed progress lines in order. -/
structure RunResult (δ ε : Type) where
  committed : δ
  err : Option ε
  output : List String
deriving Repr

/-- The loop of etl.py lines 145-148 over the remaining files, where `i` is
the 1-based index of the next file and `n` the total count: process, commit,
print; stop at the first error, keeping what was already committed. -/
def runFiles (step : δ → α → Except ε δ) (n : Nat) (db : δ) (i : Nat) :
    List α → RunResult δ ε
  | [] => ⟨db, none, []⟩
  | f :: fs =>
    match step db f with
    | .error e => ⟨db, some e, []⟩
    | .ok db₁ =>
      let r := runFiles step n db₁ (i + 1) fs
      ⟨r.committed, r.err, progressLine i n :: r.output⟩

/-- `process_data` on an already-discovered file list: prints the count
line, then runs the per-file loop. -/
def processData (step : δ → α → Except ε δ) (db : δ) (files : List α)
    (root : String) : RunResult δ ε :=
  let n := files.length
  let r := runFiles step n db 1 files
  { r with output :=
      (toString n ++ " files found in " ++ root) :: r.output }

/-- All of `files` succeed in order from `db`: the state after each file,
or `none` from the first failure on. -/
def foldOk (step : δ → α → Except ε δ) (db : δ) :
    List α → Option δ
  | [] => some db
  | f :: fs =>
    match step db f with
    | .error _ => none
    | .ok db₁ => foldOk step db₁ fs

/-! ## Concrete fixtures used by witnesses and counterexamples -/

/-- A retained log event whose `(song, artist, length)` matches nothing in an
empty database; `421/2` is the exact rational 210.5. -/
def noMatchEvent : LogEvent :=
  ⟨"NextSong", 1541106106796, 7, "Jane", "Doe", "F", "free", "X", "Y",
    421 / 2, 139, "NY", "agent"⟩

/-- A root path that does not exist. -/
def fsMissing : FileSystem := ⟨false, [⟨"/data/log_data", ["a.json"]⟩]⟩

/-- An existing root containing no `*.json` files. -/
def fsNoJson : FileSystem :=
  ⟨true, [⟨"/data/log_data", ["readme.txt", "notes.md"]⟩]⟩

def songEx : SongRow := ⟨"S1", "Setanta matins", "A1", 2000, 178⟩

def artistEx : ArtistRow := ⟨"A1", "Elena", "Dubai UAE", none, none⟩

/-- Two song files: the second one's first record repeats `song_id` "S1"
with different data and brings a new artist. -/
def songFilesEx : List (List SongRecord) :=
  [[⟨"S1", "Setanta matins", "A1", 2000, 178, "Elena", "Dubai UAE", none,
      none⟩],
   [⟨"S1", "Other title", "A2", 1999, 200, "Casual", "NY", none, none⟩]]

/-- The database after one run of the song phase on `songFilesEx`:
the duplicate `song_id` insert was a no-op (first write won), both artists
are present. -/
def dbAfterSongPhase : DB :=
  { emptyDB with
    songs := [⟨"S1", "Setanta matins", "A1", 2000, 178⟩]
    artists := [⟨"A1", "Elena", "Dubai UAE", none, none⟩,
                ⟨"A2", "Casual", "NY", none, none⟩] }

def usersEx : List UserRow :=
  [⟨7, "Ann", "Lee", "F", "free"⟩, ⟨8, "Cy", "Dee", "M", "free"⟩]

def userUpdEx : UserRow := ⟨7, "Bob", "Roe", "M", "paid"⟩

/-- A log file: two retained events sharing one `ts`, and one event on a
different page. -/
def logEventsEx : List LogEvent :=
  [⟨"NextSong", 1542241826796, 7, "Ann", "Lee", "F", "free", "Sehr kosmisch",
     "Harmonia", 655, 583, "SF", "agent1"⟩,
   ⟨"Home", 1542241900000, 8, "Cy", "Dee", "M", "free", "", "", 0, 583, "SF",
     "agent1"⟩,
   ⟨"NextSong", 1542241826796, 7, "Ann", "Lee", "F", "free", "Sehr kosmisch",
     "Harmonia", 655, 583, "SF", "agent1"⟩]

/-- The time row of the fixture events' shared timestamp,
2018-11-15T00:30:26.796Z. -/
def timeRowEx : TimeRow := timeMark 1542241826796

/-- A step function for the runner fixtures: file `0` fails, any other file
`a` adds `a` to the state. -/
def step0 : Nat → Nat → Except Unit Nat :=
  fun d a => if a == 0 then .error () else .ok (d + a)

/-! ## Helper lemmas -/

theorem foldl_append_singleton (f : α → β) (l : List α) (acc : List β) :
    l.foldl (fun acc e => acc ++ [f e]) acc = acc ++ l.map f := by
  induction l generalizing acc with
  | nil => simp
  | cons x xs ih => simp [List.foldl_cons, ih]

theorem mem_of_mem_dropDupsAux [DecidableEq α] {y : α} :
    ∀ {seen l : List α}, y ∈ dropDupsAux seen l → y ∈ l := by
  intro seen l
  induction l generalizing seen with
  | nil => simp [dropDupsAux]
  | cons x xs ih =>
    simp only [dropDupsAux]
    split
    · exact fun h => .tail x (ih h)
    · intro h
      rcases List.mem_cons.mp h with h | h
      · exact h ▸ List.mem_cons_self x xs
      · exact .tail x (ih h)

theorem not_mem_seen_of_mem_dropDupsAux [DecidableEq α] {y : α} :
    ∀ {seen l : List α}, y ∈ dropDupsAux seen l → y ∉ seen := by
  intro seen l
  induction l generalizing seen with
  | nil => simp [dropDupsAux]
  | cons x xs ih =>
    simp only [dropDupsAux]
    split
    · exact ih
    · intro h hy
      rcases List.mem_cons.mp h with h | h
      · subst h; exact ‹y ∉ seen› hy
      · exact ih h (List.mem_cons_of_mem x hy)

theorem nodup_dropDupsAux [DecidableEq α] :
    ∀ (seen l : List α), (dropDupsAux seen l).Nodup := by
  intro seen l
  induction l generalizing seen with
  | nil => simp [dropDupsAux]
  | cons x xs ih =>
    simp only [dropDupsAux]
    split
    · exact ih seen
    · refine List.nodup_cons.mpr ⟨fun hx => ?_, ih (x :: seen)⟩
      exact not_mem_seen_of_mem_dropDupsAux hx (List.mem_cons_self x seen)

theorem mem_of_mem_dropDups [DecidableEq α] {y : α} {l : List α}
    (h : y ∈ dropDups l) : y ∈ l :=
  mem_of_mem_dropDupsAux h

theorem nodup_dropDups [DecidableEq α] (l : List α) :
    (dropDups l).Nodup := nodup_dropDupsAux [] l

/-! ## C10: only the first record of a song file is loaded -/

/-- C10: if a song file parses to more than one record, `process_song_file`
behaves exactly as on the file holding only the first record — it inserts
that record's Song and Artist rows, ignores every later record, and raises
no error. -/
theorem song_file_first_record_only (db : DB) (r : SongRecord)
    (rest : List SongRecord) :
    processSongFile db (r :: rest) = processSongFile db [r] ∧
    processSongFile db (r :: rest) =
      Except.ok { db with
        songs := insertSong db.songs (songRowOf r)
        artists := insertArtist db.artists (artistRowOf r) } :=
  ⟨rfl, rfl⟩

/-! ## C6: one SongPlay per retained event, in file order -/

/-- C6: the songplay loop emits exactly the image of the `page == "NextSong"`
filter, in original file order; events on any other page are dropped without
error, and the number of emitted rows equals the number of retained
events. -/
theorem songplay_rows_filter_map (db : DB) (events : List LogEvent) :
    emittedSongplays db events =
      (events.filter fun e => e.page == "NextSong").map (mkSongplay db) ∧
    (emittedSongplays db events).length =
      events.countP fun e => e.page == "NextSong" := by
  have h : emittedSongplays db events =
      (events.filter fun e => e.page == "NextSong").map (mkSongplay db) := by
    simpa using foldl_append_singleton (mkSongplay db)
      (retained events) []
  refine ⟨h, ?_⟩
  rw [h, List.length_map, ← List.countP_eq_length_filter]

/-! ## C3: discovery on an empty or missing root -/

/-- C3-counterexample: the root path of `fsMissing` does not exist — the
directory scan reports `fileNotFound` — yet the discoverer returns the
normal value `[]` rather than failing: the claimed `NotFoundError` outcome
does not happen. -/
theorem discover_missing_root_counterexample :
    scandirRoot fsMissing = Except.error OSError.fileNotFound ∧
    getFiles fsMissing = [] := ⟨rfl, rfl⟩

/-- C3-amended: the discoverer never fails: it returns an empty sequence
both when the root exists but holds no `*.json` file and when the root does
not exist (the walk swallows the scan error). -/
theorem discover_empty_cases (fs : FileSystem) :
    (fs.rootExists = false → getFiles fs = []) ∧
    ((∀ d ∈ fs.dirs, ∀ f ∈ d.files, endsWithStr f ".json" = false) →
      getFiles fs = []) := by
  have hw : ∀ d ∈ osWalk fs, d ∈ fs.dirs := by
    unfold osWalk scandirRoot
    by_cases h : fs.rootExists <;> simp [h]
  constructor
  · intro h
    simp [getFiles, osWalk, scandirRoot, h]
  · intro h
    have hnil : ((osWalk fs).flatMap fun d =>
        (d.files.filter fun f => endsWithStr f ".json").map fun f =>
          d.path ++ "/" ++ f) = [] := by
      refine List.flatMap_eq_nil_iff.mpr fun d hd => ?_
      have : (d.files.filter fun f => endsWithStr f ".json") = [] :=
        List.filter_eq_nil_iff.mpr fun f hf => by
          simp [h d (hw d hd) f hf]
      simp [this]
    simp [getFiles, hnil]

/-- Witness for C3-amended, at the two concrete filesystems. -/
theorem discover_empty_cases_witness :
    getFiles fsMissing = [] ∧ getFiles fsNoJson = [] :=
  ⟨(discover_empty_cases fsMissing).1 rfl,
   (discover_empty_cases fsNoJson).2 (by decide)⟩

/-! ## C2: the songplays NOT NULL columns reject the no-match row -/

/-- C2: contrary to the spec, `songplay_table_create` declares `song_id` and
`artist_id` as `NOT NULL` (sql_queries.py lines 16-17).  For a retained
event with no matching Song/Artist pair the loop emits the row with
`song_id = NULL, artist_id = NULL` — and inserting that row raises a
not-null constraint violation instead of succeeding. -/
theorem songplay_notnull_bug :
    (mkSongplay emptyDB noMatchEvent).song_id = none ∧
    (mkSongplay emptyDB noMatchEvent).artist_id = none ∧
    insertSongplay [] (mkSongplay emptyDB noMatchEvent) =
      Except.error SqlError.notNullViolation :=
  ⟨rfl, rfl, rfl⟩

/-! ## C7: no two proposed time rows share a start_time -/

/-- C7: within one log file, the deduplicated time rows proposed for
insertion are pairwise distinct in `start_time`, even when the same `ts`
occurs in several retained events. -/
theorem time_rows_distinct_start (events : List LogEvent) :
    (timeRows events).Pairwise fun a b => a.start_time ≠ b.start_time := by
  have hnd : (timeRows events).Nodup := nodup_dropDups _
  refine hnd.imp_of_mem ?_
  intro a b ha hb hne heq
  have ha' := mem_of_mem_dropDups ha
  have hb' := mem_of_mem_dropDups hb
  rcases List.mem_map.mp ha' with ⟨ea, _, hae⟩
  rcases List.mem_map.mp hb' with ⟨eb, _, hbe⟩
  apply hne
  rw [← hae, ← hbe]
  have : ea.ts = eb.ts := by
    have h1 : (timeMark ea.ts).start_time = ea.ts := rfl
    have h2 : (timeMark eb.ts).start_time = eb.ts := rfl
    rw [← h1, ← h2, hae, hbe, heq]
  rw [this]

/-! ## C8: every time row is derived from the event's ts alone -/

/-- C8: every time row proposed from a log file comes from a retained
event's `ts` and is determined by it: `start_time` is that `ts`, and the
derived columns are the hour of day, civil day of month, ISO-8601 week
number, civil month, civil year, and the Monday=0..Sunday=6 weekday of the
timestamp. -/
theorem time_mark_from_ts (events : List LogEvent) (r : TimeRow)
    (h : r ∈ timeRows events) :
    (∃ e, e ∈ events ∧ e.page = "NextSong" ∧ r.start_time = e.ts) ∧
    r = timeMark r.start_time ∧
    r.hour = hourOfMs r.start_time ∧
    r.day = dayOfMs r.start_time ∧
    r.week = isoWeekOfMs r.start_time ∧
    r.month = monthOfMs r.start_time ∧
    r.year = yearOfMs r.start_time ∧
    r.weekday = weekdayOfMs r.start_time := by
  have h' := mem_of_mem_dropDups h
  rcases List.mem_map.mp h' with ⟨e, he, hre⟩
  rcases List.mem_filter.mp he with ⟨hmem, hpage⟩
  have hst : r.start_time = e.ts := by rw [← hre]; rfl
  have hr : r = timeMark r.start_time := by rw [hst, ← hre]
  refine ⟨⟨e, hmem, by simpa using hpage, hst⟩, hr, ?_, ?_, ?_, ?_, ?_, ?_⟩
  all_goals rw [hr]
  all_goals rfl

/-- Witness for C8 at the fixture log file: the shared timestamp
1542241826796 is 2018-11-15T00:30:26.796Z — hour 0, day 15, ISO week 46,
month 11, year 2018, weekday 3 (Thursday). -/
theorem time_mark_from_ts_witness :
    ((∃ e, e ∈ logEventsEx ∧ e.page = "NextSong" ∧
        timeRowEx.start_time = e.ts) ∧
      timeRowEx = timeMark timeRowEx.start_time ∧
      timeRowEx.hour = hourOfMs timeRowEx.start_time ∧
      timeRowEx.day = dayOfMs timeRowEx.start_time ∧
      timeRowEx.week = isoWeekOfMs timeRowEx.start_time ∧
      timeRowEx.month = monthOfMs timeRowEx.start_time ∧
      timeRowEx.year = yearOfMs timeRowEx.start_time ∧
      timeRowEx.weekday = weekdayOfMs timeRowEx.start_time) ∧
    timeRowEx = ⟨1542241826796, 0, 15, 46, 11, 2018, 3⟩ :=
  ⟨time_mark_from_ts logEventsEx timeRowEx (by decide), by decide⟩

/-! ## C5: the user upsert overwrites level only -/

/-- C5: applying a user row whose `user_id` already exists leaves the table
the same length and every row in place; the conflicting row keeps its
`user_id`, `first_name`, `last_name` and `gender` and gets the new `level`,
while all other rows are untouched.  In particular loading `userId=7,
level="free"` then `userId=7, level="paid"` leaves exactly one row for user
7, with `level="paid"` and the identity fields of the first load. -/
theorem user_upsert_level_only (t : List UserRow) (r : UserRow)
    (h : (t.any fun x => x.user_id == r.user_id) = true) :
    (upsertUser t r).length = t.length ∧
    (∀ i, i < t.length →
      ∃ x y, t[i]? = some x ∧ (upsertUser t r)[i]? = some y ∧
        y.user_id = x.user_id ∧ y.first_name = x.first_name ∧
        y.last_name = x.last_name ∧ y.gender = x.gender ∧
        y.level = (if x.user_id == r.user_id then r.level else x.level)) ∧
    upsertUser (upsertUser [] ⟨7, "Ann", "Lee", "F", "free"⟩)
        ⟨7, "Bob", "Roe", "M", "paid"⟩ = [⟨7, "Ann", "Lee", "F", "paid"⟩] := by
  have hmap : upsertUser t r = t.map fun x =>
      if x.user_id == r.user_id then { x with level := r.level } else x := by
    unfold upsertUser
    rw [if_pos h]
  refine ⟨by rw [hmap, List.length_map], ?_, by decide⟩
  intro i hi
  have hx : t[i]? = some t[i] := List.getElem?_eq_getElem hi
  refine ⟨t[i],
    if t[i].user_id == r.user_id then { t[i] with level := r.level }
      else t[i], hx, ?_, ?_⟩
  · rw [hmap, List.getElem?_map, hx]
    rfl
  · by_cases hc : (t[i].user_id == r.user_id) = true <;> simp [hc]

/-- Witness for C5 at the fixture table: user 7's identity fields survive,
only the level changes, user 8 is untouched, and the two-step load scenario
ends in one paid row. -/
theorem user_upsert_level_only_witness :
    (upsertUser usersEx userUpdEx).length = usersEx.length ∧
    upsertUser (upsertUser [] ⟨7, "Ann", "Lee", "F", "free"⟩)
        ⟨7, "Bob", "Roe", "M", "paid"⟩ = [⟨7, "Ann", "Lee", "F", "paid"⟩] ∧
    upsertUser usersEx userUpdEx =
      [⟨7, "Ann", "Lee", "F", "paid"⟩, ⟨8, "Cy", "Dee", "M", "free"⟩] :=
  ⟨(user_upsert_level_only usersEx userUpdEx (by decide)).1,
   (user_upsert_level_only usersEx userUpdEx (by decide)).2.2,
   by decide⟩

/-! ## C1: song/artist resolution by exact triple equality -/

theorem mem_songSelectResults {songs : List SongRow}
    {artists : List ArtistRow} {song artist : String} {length : Rat}
    {p : String × String} :
    p ∈ songSelectResults songs artists song artist length ↔
      ∃ s ∈ songs, ∃ a ∈ artists, matchCond s a song artist length = true ∧
        p = (s.song_id, s.artist_id) := by
  unfold songSelectResults
  constructor
  · intro hp
    rcases List.mem_flatMap.mp hp with ⟨s, hs, hps⟩
    rcases List.mem_map.mp hps with ⟨a, ha, hpa⟩
    rcases List.mem_filter.mp ha with ⟨ha', hcond⟩
    exact ⟨s, hs, a, ha', hcond, hpa.symm⟩
  · rintro ⟨s, hs, a, ha, hcond, rfl⟩
    refine List.mem_flatMap.mpr ⟨s, hs, List.mem_map.mpr ⟨a, ?_, rfl⟩⟩
    exact List.mem_filter.mpr ⟨ha, hcond⟩

/-- C1: the lookup matches songs and artists joined on `artist_id` by exact
equality of title, artist name and duration, and consults only the first
result: when no pair matches, the emitted ids are both null; when some pair
matches, the emitted row carries the `(song_id, artist_id)` of a matching
pair (the first one in join order).  The songplay row always carries exactly
the resolver's output. -/
theorem song_resolve_lookup (songs : List SongRow) (artists : List ArtistRow)
    (song artist : String) (length : Rat) :
    ((∀ s ∈ songs, ∀ a ∈ artists, matchCond s a song artist length = false) →
      resolveSong songs artists song artist length = (none, none)) ∧
    ((∃ s ∈ songs, ∃ a ∈ artists, matchCond s a song artist length = true) →
      ∃ s a, s ∈ songs ∧ a ∈ artists ∧
        matchCond s a song artist length = true ∧
        resolveSong songs artists song artist length =
          (some s.song_id, some s.artist_id)) ∧
    (∀ (db : DB) (e : LogEvent),
      ((mkSongplay db e).song_id, (mkSongplay db e).artist_id) =
        resolveSong db.songs db.artists e.song e.artist e.length) := by
  refine ⟨?_, ?_, fun db e => rfl⟩
  · intro h
    have hnil : songSelectResults songs artists song artist length = [] := by
      rcases hr : songSelectResults songs artists song artist length with
        _ | ⟨p, rest⟩
      · rfl
      · exfalso
        have hp : p ∈ songSelectResults songs artists song artist length :=
          hr ▸ List.mem_cons_self p rest
        rcases mem_songSelectResults.mp hp with ⟨s, hs, a, ha, hcond, _⟩
        rw [h s hs a ha] at hcond
        exact Bool.false_ne_true hcond
    unfold resolveSong
    rw [hnil]
  · rintro ⟨s, hs, a, ha, hcond⟩
    have hne : songSelectResults songs artists song artist length ≠ [] := by
      intro hnil
      have : (s.song_id, s.artist_id) ∈
          songSelectResults songs artists song artist length :=
        mem_songSelectResults.mpr ⟨s, hs, a, ha, hcond, rfl⟩
      rw [hnil] at this
      exact List.not_mem_nil _ this
    rcases hr : songSelectResults songs artists song artist length with
      _ | ⟨p, rest⟩
    · exact absurd hr hne
    · have hp : p ∈ songSelectResults songs artists song artist length :=
        hr ▸ List.mem_cons_self p rest
      rcases mem_songSelectResults.mp hp with ⟨s', hs', a', ha', hcond', hpe⟩
      refine ⟨s', a', hs', ha', hcond', ?_⟩
      unfold resolveSong
      rw [hr, hpe]

/-- Witness for C1: on an empty catalogue the resolver yields `(null,
null)`; with the fixture song and artist loaded, the matching lookup yields
their ids, and the emitted songplay row carries them. -/
theorem song_resolve_lookup_witness :
    resolveSong [] [] "X" "Y" (421 / 2) = (none, none) ∧
    (∃ s a, s ∈ [songEx] ∧ a ∈ [artistEx] ∧
      matchCond s a "Setanta matins" "Elena" 178 = true ∧
      resolveSong [songEx] [artistEx] "Setanta matins" "Elena" 178 =
        (some s.song_id, some s.artist_id)) ∧
    resolveSong [songEx] [artistEx] "Setanta matins" "Elena" 178 =
      (some "S1", some "A1") :=
  ⟨(song_resolve_lookup [] [] "X" "Y" (421 / 2)).1 (by decide),
   (song_resolve_lookup [songEx] [artistEx] "Setanta matins" "Elena"
      178).2.1 (by decide),
   by decide⟩

/-! ## C4: the song-file phase is idempotent -/

theorem insertSong_mono {t : List SongRow} {i : String} (r : SongRow)
    (h : (t.any fun x => x.song_id == i) = true) :
    ((insertSong t r).any fun x => x.song_id == i) = true := by
  unfold insertSong
  split
  · exact h
  · rw [List.any_append, h, Bool.true_or]

theorem insertArtist_mono {t : List ArtistRow} {i : String} (r : ArtistRow)
    (h : (t.any fun x => x.artist_id == i) = true) :
    ((insertArtist t r).any fun x => x.artist_id == i) = true := by
  unfold insertArtist
  split
  · exact h
  · rw [List.any_append, h, Bool.true_or]

theorem insertSong_has_self (t : List SongRow) (r : SongRow) :
    ((insertSong t r).any fun x => x.song_id == r.song_id) = true := by
  unfold insertSong
  split
  · assumption
  · rw [List.any_append]
    simp

theorem insertArtist_has_self (t : List ArtistRow) (r : ArtistRow) :
    ((insertArtist t r).any fun x => x.artist_id == r.artist_id) = true := by
  unfold insertArtist
  split
  · assumption
  · rw [List.any_append]
    simp

theorem runSongPhase_mono (i j : String) :
    ∀ (files : List (List SongRecord)) (db db' : DB),
      runSongPhase db files = Except.ok db' →
      ((db.songs.any fun x => x.song_id == i) = true →
        (db'.songs.any fun x => x.song_id == i) = true) ∧
      ((db.artists.any fun x => x.artist_id == j) = true →
        (db'.artists.any fun x => x.artist_id == j) = true) := by
  intro files
  induction files with
  | nil =>
    intro db db' h
    cases h
    exact ⟨id, id⟩
  | cons f fs ih =>
    intro db db' h
    cases f with
    | nil => simp [runSongPhase, processSongFile] at h
    | cons r rest =>
      simp only [runSongPhase, processSongFile] at h
      have := ih _ _ h
      exact ⟨fun hs => this.1 (insertSong_mono _ hs),
             fun ha => this.2 (insertArtist_mono _ ha)⟩

theorem runSongPhase_all_present :
    ∀ (files : List (List SongRecord)) (db db' : DB),
      runSongPhase db files = Except.ok db' →
      ∀ f ∈ files, ∃ r rest, f = r :: rest ∧
        (db'.songs.any fun x => x.song_id == r.song_id) = true ∧
        (db'.artists.any fun x => x.artist_id == r.artist_id) = true := by
  intro files
  induction files with
  | nil =>
    intro db db' _ f hf
    exact absurd hf (List.not_mem_nil f)
  | cons f fs ih =>
    intro db db' h g hg
    cases f with
    | nil => simp [runSongPhase, processSongFile] at h
    | cons r rest =>
      simp only [runSongPhase, processSongFile] at h
      rcases List.mem_cons.mp hg with hg | hg
      · subst hg
        refine ⟨r, rest, rfl, ?_, ?_⟩
        · exact (runSongPhase_mono r.song_id r.artist_id fs _ db' h).1
            (insertSong_has_self db.songs (songRowOf r))
        · exact (runSongPhase_mono r.song_id r.artist_id fs _ db' h).2
            (insertArtist_has_self db.artists (artistRowOf r))
      · exact ih _ _ h g hg

theorem runSongPhase_noop :
    ∀ (files : List (List SongRecord)) (db : DB),
      (∀ f ∈ files, ∃ r rest, f = r :: rest ∧
        (db.songs.any fun x => x.song_id == r.song_id) = true ∧
        (db.artists.any fun x => x.artist_id == r.artist_id) = true) →
      runSongPhase db files = Except.ok db := by
  intro files
  induction files with
  | nil => intro db _; rfl
  | cons f fs ih =>
    intro db h
    rcases h f (List.mem_cons_self f fs) with ⟨r, rest, hf, hs, ha⟩
    subst hf
    simp only [runSongPhase, processSongFile]
    have hs' : insertSong db.songs (songRowOf r) = db.songs := by
      unfold insertSong
      exact if_pos hs
    have ha' : insertArtist db.artists (artistRowOf r) = db.artists := by
      unfold insertArtist
      exact if_pos ha
    rw [hs', ha']
    exact ih db fun g hg => h g (List.mem_cons_of_mem _ hg)

/-- C4: a song insert whose `song_id` already exists is a no-op keeping the
existing row, likewise for artists, and hence a second run of the song-file
phase over the same input set from the state the first run produced leaves
the database exactly as it was. -/
theorem song_phase_idempotent :
    (∀ (t : List SongRow) (r : SongRow),
      (t.any fun x => x.song_id == r.song_id) = true → insertSong t r = t) ∧
    (∀ (t : List ArtistRow) (r : ArtistRow),
      (t.any fun x => x.artist_id == r.artist_id) = true →
        insertArtist t r = t) ∧
    (∀ (db db' : DB) (files : List (List SongRecord)),
      runSongPhase db files = Except.ok db' →
      runSongPhase db' files = Except.ok db') := by
  refine ⟨fun t r h => by unfold insertSong; rw [if_pos h],
          fun t r h => by unfold insertArtist; rw [if_pos h],
          fun db db' files h => ?_⟩
  exact runSongPhase_noop files db' (runSongPhase_all_present files db db' h)

/-- Witness for C4: the first run over the two fixture files keeps the first
"S1" row (the second file's conflicting record is a no-op) and the second
run changes nothing; a direct conflicting insert keeps the existing row. -/
theorem song_phase_idempotent_witness :
    insertSong [songEx] ⟨"S1", "Other title", "A2", 1999, 200⟩ = [songEx] ∧
    runSongPhase emptyDB songFilesEx = Except.ok dbAfterSongPhase ∧
    runSongPhase dbAfterSongPhase songFilesEx = Except.ok dbAfterSongPhase :=
  ⟨song_phase_idempotent.1 [songEx] ⟨"S1", "Other title", "A2", 1999, 200⟩
      (by decide),
   rfl,
   song_phase_idempotent.2.2 emptyDB dbAfterSongPhase songFilesEx rfl⟩

/-! ## C9: per-file processing, commit and progress order -/

theorem runFiles_ok {δ ε α : Type} (step : δ → α → Except ε δ) (n : Nat) :
    ∀ (files : List α) (db dbf : δ) (i : Nat),
      foldOk step db files = some dbf →
      runFiles step n db i files =
        ⟨dbf, none,
          (List.range files.length).map fun k => progressLine (i + k) n⟩ := by
  intro files
  induction files with
  | nil =>
    intro db dbf i h
    cases h
    rfl
  | cons f fs ih =>
    intro db dbf i h
    unfold foldOk at h
    cases hstep : step db f with
    | error e => rw [hstep] at h; cases h
    | ok db₁ =>
      rw [hstep] at h
      have hr := ih db₁ dbf (i + 1) h
      have hsh : ∀ k, i + 1 + k = i + (k + 1) := fun k => by omega
      simp [runFiles, hstep, hr, List.range_succ_eq_map, List.map_map,
        Function.comp_def, hsh]

theorem runFiles_err {δ ε α : Type} (step : δ → α → Except ε δ) (n : Nat) :
    ∀ (pre : List α) (db db₁ : δ) (i : Nat) (f : α) (post : List α) (e : ε),
      foldOk step db pre = some db₁ → step db₁ f = Except.error e →
      runFiles step n db i (pre ++ f :: post) =
        ⟨db₁, some e,
          (List.range pre.length).map fun k => progressLine (i + k) n⟩ := by
  intro pre
  induction pre with
  | nil =>
    intro db db₁ i f post e h hf
    cases h
    simp [runFiles, hf]
  | cons g gs ih =>
    intro db db₁ i f post e h hf
    unfold foldOk at h
    cases hstep : step db g with
    | error e' => rw [hstep] at h; cases h
    | ok db₂ =>
      rw [hstep] at h
      have hr := ih db₂ db₁ (i + 1) f post e h hf
      have hsh : ∀ k, i + 1 + k = i + (k + 1) := fun k => by omega
      simp only [List.cons_append]
      simp [runFiles, hstep, hr, List.range_succ_eq_map, List.map_map,
        Function.comp_def, hsh]

/-- C9: the runner handles files strictly in order, committing after each
file and printing the progress line for a file only once it is committed.
If every file succeeds, the run commits all of them and prints one line per
file in order; if a file fails, the run stops with that error, nothing after
the failing file runs, its own work is not committed, and the state reached
by the files before it stays committed, with exactly their progress lines
printed. -/
theorem process_data_commit_order {δ ε α : Type}
    (step : δ → α → Except ε δ) (db : δ) (root : String) :
    (∀ (files : List α) (dbf : δ), foldOk step db files = some dbf →
      processData step db files root =
        ⟨dbf, none,
          (toString files.length ++ " files found in " ++ root) ::
            ((List.range files.length).map fun k =>
              progressLine (k + 1) files.length)⟩) ∧
    (∀ (pre : List α) (f : α) (post : List α) (db₁ : δ) (e : ε),
      foldOk step db pre = some db₁ → step db₁ f = Except.error e →
      processData step db (pre ++ f :: post) root =
        ⟨db₁, some e,
          (toString (pre ++ f :: post).length ++ " files found in " ++ root)
            :: ((List.range pre.length).map fun k =>
              progressLine (k + 1) (pre ++ f :: post).length)⟩) := by
  constructor
  · intro files dbf h
    have hr := runFiles_ok step files.length files db dbf 1 h
    have hsh : ∀ k, 1 + k = k + 1 := fun k => by omega
    simp [processData, hr, hsh]
  · intro pre f post db₁ e h hf
    have hr := runFiles_err step (pre ++ f :: post).length pre db db₁ 1 f
      post e h hf
    have hsh : ∀ k, 1 + k = k + 1 := fun k => by omega
    simp only [List.length_append, List.length_cons, hsh] at hr
    simp [processData, hr, hsh]

/-- Witness for C9 with the fixture step function (file `0` fails): a clean
run commits both files and prints both lines; a run hitting the failing
file keeps the first file's commit, prints only its line, and stops. -/
theorem process_data_commit_order_witness :
    processData step0 0 [2, 3] "data/song_data" =
      ⟨5, none, ["2 files found in data/song_data", "1/2 files processed.",
        "2/2 files processed."]⟩ ∧
    processData step0 0 [2, 0, 5] "data/log_data" =
      ⟨2, some (), ["3 files found in data/log_data",
        "1/3 files processed."]⟩ :=
  ⟨(process_data_commit_order step0 0 "data/song_data").1 [2, 3] 5 rfl,
   (process_data_commit_order step0 0 "data/log_data").2 [2] 0 [5] 2 () rfl
      rfl⟩
